import Mathlib

/-!
Verification of the ScrollThresholdTracker component, the useScrollTop
React hook of this repository (quoted in full in
src/docs/React-hook-use_scroll_top.md, lines 90-115).

The hook is

  export const useScrollTop = (threshold = 10) => {
    const [scrolled, setScrolled] = useState(false);
    useEffect(() => {
      const handleScroll = () => {
        if (window.scrollY > threshold) {
          setScrolled(true);
        } else {
          setScrolled(false);
        }
      };
      window.addEventListener("scroll", handleScroll);
      return () => window.removeEventListener("scroll", handleScroll);
    }, [threshold]);
    return scrolled;
  };

We embed it as a state machine.  A tracker state carries the current
threshold (the value captured by the handleScroll closure that is
registered), the scrolled flag (the useState cell), and whether the
listener is currently registered (active).  Events are the serially
delivered occurrences the hosting environment produces:

  * scrollNotify p : the browser fires a scroll event with window.scrollY
    reading p; if the listener is registered, handleScroll runs and sets
    scrolled to the result of the comparison, otherwise nothing happens;
  * setThreshold t : the consumer re-renders with a new threshold, so the
    effect with dependency array [threshold] re-runs: the old listener is
    removed and a fresh handleScroll closure capturing t is added.  The
    effect body contains no call of handleScroll itself and no
    setScrolled call, so the scrolled cell is untouched;
  * deactivate : the component unmounts and the effect cleanup removes
    the listener.

Positions and thresholds are JavaScript numbers compared with >; all the
behaviour at stake is order-theoretic, so we model them as integers.
-/

/-- One tracker instance: the threshold captured by the registered
handleScroll closure, the scrolled useState cell, and whether the scroll
listener is currently registered. -/
structure TrackerState where
  threshold : Int
  scrolled : Bool
  active : Bool
  deriving Repr, DecidableEq

/-- The body of handleScroll: if window.scrollY > threshold then
setScrolled(true) else setScrolled(false).  Returns the value the
scrolled cell receives. -/
def handleScroll (threshold : Int) (scrollY : Int) : Bool :=
  if scrollY > threshold then true else false

/-- Occurrences delivered serially by the hosting environment to one
tracker instance. -/
inductive Event where
  | scrollNotify (p : Int)
  | setThreshold (t : Int)
  | deactivate
  deriving Repr, DecidableEq

/-- Mounting the component: useState(false) initialises the scrolled cell
to false with no synchronous read of the position, and the effect runs
once, registering the listener for the supplied threshold (default 10,
from the parameter threshold = 10). -/
def activate (threshold : Int := 10) : TrackerState :=
  { threshold := threshold, scrolled := false, active := true }

/-- Processing one delivered occurrence.  A scroll event reaches
handleScroll only while the listener is registered.  A threshold change
re-runs the effect: the listener is replaced by one capturing the new
threshold, and nothing in the effect body writes the scrolled cell.
Unmount cleanup removes the listener and the state is discarded. -/
def step (s : TrackerState) : Event → TrackerState
  | Event.scrollNotify p =>
      if s.active then { s with scrolled := handleScroll s.threshold p } else s
  | Event.setThreshold t =>
      if s.active then { s with threshold := t } else s
  | Event.deactivate => { s with active := false }

/-- Processing a whole sequence of delivered occurrences in order. -/
def run (s : TrackerState) (es : List Event) : TrackerState :=
  es.foldl step s

/-- The scrolled value observed by the consumer after each notification
of a position sequence, in order. -/
def observedFlags (s : TrackerState) : List Int → List Bool
  | [] => []
  | p :: ps =>
      let s' := step s (Event.scrollNotify p)
      s'.scrolled :: observedFlags s' ps

/-- Scroll notifications never touch the listener registration. -/
theorem step_scrollNotify_active (s : TrackerState) (p : Int) :
    (step s (Event.scrollNotify p)).active = s.active := by
  unfold step
  by_cases h : s.active <;> simp [h]

/-- While the listener is registered, a scroll notification leaves the
threshold unchanged. -/
theorem step_scrollNotify_threshold (s : TrackerState) (p : Int) :
    (step s (Event.scrollNotify p)).threshold = s.threshold := by
  unfold step
  by_cases h : s.active <;> simp [h]

/-- A scroll notification on an unregistered listener changes nothing. -/
theorem step_scrollNotify_inactive (s : TrackerState) (p : Int)
    (h : s.active = false) : step s (Event.scrollNotify p) = s := by
  unfold step
  simp [h]

/-- C1: for every threshold T and position P, processing a scroll
notification reporting P while the tracker is active with threshold T
sets the scrolled flag to the truth value of P > T, whatever the flag
was before. -/
theorem scrollNotify_sets_flag (s : TrackerState) (T P : Int)
    (hA : s.active = true) (hT : s.threshold = T) :
    (step s (Event.scrollNotify P)).scrolled = decide (P > T) := by
  unfold step handleScroll
  simp [hA, hT]

/-- Witness for C1: from a state with threshold 7 and flag true, a
notification reporting 4 drives the flag to the value of 4 > 7,
that is, false. -/
theorem scrollNotify_sets_flag_witness :
    (step { threshold := 7, scrolled := true, active := true }
        (Event.scrollNotify 4)).scrolled = decide ((4 : Int) > 7) :=
  scrollNotify_sets_flag
    { threshold := 7, scrolled := true, active := true } 7 4 rfl rfl

/-- C2 counterexample: in the spec's own scenario (active, threshold 10,
last reported position 5, flag false), changing the threshold to 3 with
no new notification leaves the flag false, not true: the effect re-run
only re-registers the listener and never writes the scrolled cell. -/
theorem setThreshold_no_recompute_cex :
    (step (activate 10) (Event.scrollNotify 5)).scrolled = false ∧
    (step (step (activate 10) (Event.scrollNotify 5))
        (Event.setThreshold 3)).scrolled = false := by
  constructor <;> rfl

/-- C2 amended: changing the threshold while active re-registers the
listener with the new threshold but does not recompute the flag; the
flag keeps its prior value until the next notification, which is then
evaluated against the new threshold. -/
theorem setThreshold_defers_recompute (s : TrackerState) (t P : Int)
    (hA : s.active = true) :
    (step s (Event.setThreshold t)).scrolled = s.scrolled ∧
    (step (step s (Event.setThreshold t))
        (Event.scrollNotify P)).scrolled = decide (P > t) := by
  constructor
  · unfold step
    simp [hA]
  · unfold step handleScroll
    simp [hA]

/-- Witness for the amended C2: in the spec's scenario, after the change
from 10 to 3 the flag equals its prior value (false), and the next
notification reporting 5 yields the value of 5 > 3, that is, true. -/
theorem setThreshold_defers_recompute_witness :
    (step (step (activate 10) (Event.scrollNotify 5))
        (Event.setThreshold 3)).scrolled
      = (step (activate 10) (Event.scrollNotify 5)).scrolled ∧
    (step (step (step (activate 10) (Event.scrollNotify 5))
        (Event.setThreshold 3)) (Event.scrollNotify 5)).scrolled
      = decide ((5 : Int) > 3) :=
  setThreshold_defers_recompute
    (step (activate 10) (Event.scrollNotify 5)) 3 5 rfl

/-- C3: a notification reporting a position exactly equal to the
threshold yields a false flag: the comparison is strict. -/
theorem scrollNotify_boundary (s : TrackerState) (T : Int)
    (hA : s.active = true) (hT : s.threshold = T) :
    (step s (Event.scrollNotify T)).scrolled = false := by
  unfold step handleScroll
  simp [hA, hT]

/-- Witness for C3: with threshold 10 and prior flag true, a notification
reporting exactly 10 yields false. -/
theorem scrollNotify_boundary_witness :
    (step { threshold := 10, scrolled := true, active := true }
        (Event.scrollNotify 10)).scrolled = false :=
  scrollNotify_boundary
    { threshold := 10, scrolled := true, active := true } 10 rfl rfl

/-- C4: activating with threshold 50 and processing the notification
sequence 0, 20, 60, 60, 40 yields the observed flag sequence
false, false, true, true, false. -/
theorem end_to_end_scenario :
    observedFlags (activate 50) [0, 20, 60, 60, 40]
      = [false, false, true, true, false] := by
  rfl

/-- C5: after deactivation, any further sequence of scroll notifications
leaves the whole state, in particular the scrolled flag, exactly as
deactivation left it; this also holds when no notification ever fired
before the deactivation. -/
theorem deactivate_freezes_flag (s : TrackerState) (ps : List Int) :
    run (step s Event.deactivate) (ps.map Event.scrollNotify)
      = step s Event.deactivate := by
  induction ps with
  | nil => rfl
  | cons p ps ih =>
      have hinact : (step s Event.deactivate).active = false := by
        unfold step
        rfl
      have hfix : step (step s Event.deactivate) (Event.scrollNotify p)
          = step s Event.deactivate :=
        step_scrollNotify_inactive (step s Event.deactivate) p hinact
      calc run (step s Event.deactivate)
            ((p :: ps).map Event.scrollNotify)
          = run (step (step s Event.deactivate) (Event.scrollNotify p))
              (ps.map Event.scrollNotify) := rfl
        _ = run (step s Event.deactivate) (ps.map Event.scrollNotify) := by
            rw [hfix]
        _ = step s Event.deactivate := ih

/-- C6: delivering the same position twice in a row leaves the flag
after the second delivery equal to its value after the first, in every
state. -/
theorem scrollNotify_idempotent (s : TrackerState) (P : Int) :
    (step (step s (Event.scrollNotify P)) (Event.scrollNotify P)).scrolled
      = (step s (Event.scrollNotify P)).scrolled := by
  unfold step handleScroll
  by_cases h : s.active <;> simp [h]

/-- C7: at activation, before any notification, the flag is false for
every threshold; the mount performs no synchronous read of the ambient
position, so no position value can influence this. -/
theorem activate_flag_false (t : Int) : (activate t).scrolled = false := by
  rfl

/-- C8: activating with the threshold argument omitted is the very same
state as activating with threshold 10, so every notification sequence
observes identical flags under the two activations. -/
theorem default_threshold_is_ten (es : List Event) :
    (run activate es).scrolled = (run (activate 10) es).scrolled := by
  rfl

/-- C9: the recompute rule is memoryless: two active states with the
same threshold, whatever their flags or histories, give the same flag on
receiving the same position. -/
theorem scrollNotify_memoryless (s₁ s₂ : TrackerState) (P : Int)
    (hA₁ : s₁.active = true) (hA₂ : s₂.active = true)
    (hT : s₁.threshold = s₂.threshold) :
    (step s₁ (Event.scrollNotify P)).scrolled
      = (step s₂ (Event.scrollNotify P)).scrolled := by
  unfold step handleScroll
  simp [hA₁, hA₂, hT]

/-- Witness for C9: states with opposite flags, threshold 10, agree on
the flag produced by a notification reporting 25. -/
theorem scrollNotify_memoryless_witness :
    (step { threshold := 10, scrolled := false, active := true }
        (Event.scrollNotify 25)).scrolled
      = (step { threshold := 10, scrolled := true, active := true }
          (Event.scrollNotify 25)).scrolled :=
  scrollNotify_memoryless
    { threshold := 10, scrolled := false, active := true }
    { threshold := 10, scrolled := true, active := true } 25 rfl rfl rfl

/-- C10: with a negative threshold, every notification reporting a
non-negative position sets the flag to true. -/
theorem negative_threshold_always_true (s : TrackerState) (T P : Int)
    (hA : s.active = true) (hT : s.threshold = T)
    (hneg : T < 0) (hpos : 0 ≤ P) :
    (step s (Event.scrollNotify P)).scrolled = true := by
  unfold step handleScroll
  have hgt : P > T := lt_of_lt_of_le hneg hpos
  simp [hA, hT, hgt]

/-- Witness for C10: threshold -1, position 0 sets the flag true. -/
theorem negative_threshold_always_true_witness :
    (step { threshold := -1, scrolled := false, active := true }
        (Event.scrollNotify 0)).scrolled = true :=
  negative_threshold_always_true
    { threshold := -1, scrolled := false, active := true } (-1) 0
    rfl rfl (by decide) (by decide)
